import Mathlib

set_option linter.unusedVariables false

namespace GossipFfi

/-- Rendered peer identifier. Parsing of the caller-supplied string form is done by
the external iroh library; it is modelled abstractly by a parse function argument,
and rendering (Rust to_string) by the stored string. -/
structure NodeId where
  render : String
deriving DecidableEq

/-- Gossip message, mirroring the enum Message of src/src/gossip.rs (bytes as List Nat). -/
inductive Message where
  | NeighborUp (peer : String)
  | NeighborDown (peer : String)
  | Received (content : List Nat) (delivered_from : String)
  | Joined (peers : List String)
  | Lagged
  | Error (description : String)
deriving DecidableEq

/-- Tag of a Message, mirroring enum MessageType. -/
inductive MessageType where
  | NeighborUp
  | NeighborDown
  | Received
  | Joined
  | Lagged
  | Error
deriving DecidableEq

/-- Mirrors Message::type (src/src/gossip.rs lines 48-57). -/
def Message.type : Message → MessageType
  | .NeighborUp _ => .NeighborUp
  | .NeighborDown _ => .NeighborDown
  | .Received _ _ => .Received
  | .Joined _ => .Joined
  | .Lagged => .Lagged
  | .Error _ => .Error

/-- Mirrors struct MessageContent. -/
structure MessageContent where
  content : List Nat
  delivered_from : String
deriving DecidableEq

/-- Outcome of a narrowing accessor: either a normal return value, or a
process-terminating Rust panic carrying the panic message. -/
inductive AccessOutcome (α : Type) where
  | returns (val : α)
  | panics (msg : String)
deriving DecidableEq

/-- True when the accessor outcome is a panic (process termination), not a value
and not an explicit error result. -/
def AccessOutcome.isPanic {α : Type} : AccessOutcome α → Bool
  | .returns _ => false
  | .panics _ => true

/-- Mirrors Message::as_neighbor_up (lines 59-65): panics on any other variant. -/
def Message.as_neighbor_up : Message → AccessOutcome String
  | .NeighborUp s => .returns s
  | _ => .panics "not a NeighborUp message"

/-- Mirrors Message::as_neighbor_down (lines 67-73). -/
def Message.as_neighbor_down : Message → AccessOutcome String
  | .NeighborDown s => .returns s
  | _ => .panics "not a NeighborDown message"

/-- Mirrors Message::as_joined (lines 75-81). -/
def Message.as_joined : Message → AccessOutcome (List String)
  | .Joined nodes => .returns nodes
  | _ => .panics "not a Joined message"

/-- Mirrors Message::as_received (lines 83-96). -/
def Message.as_received : Message → AccessOutcome MessageContent
  | .Received content delivered_from =>
      .returns { content := content, delivered_from := delivered_from }
  | _ => .panics "not a Received message"

/-- Mirrors Message::as_error (lines 98-104). -/
def Message.as_error : Message → AccessOutcome String
  | .Error s => .returns s
  | _ => .panics "not a Error message"

/-- Opaque handle to the duplex channel pair returned by the external gossip engine. -/
structure EngineChannels where
  chanId : Nat

/-- State of a Sender handle: whether the outbound sink has been closed and whether
the shared CancellationToken has been cancelled. -/
structure Sender where
  sinkClosed : Bool
  cancelled : Bool
deriving DecidableEq

/-- Observable outcome of Gossip::subscribe: the returned result, whether the
external engine's subscribe was invoked, and whether the background pump task
was spawned. -/
structure SubscribeObs where
  result : Except String Sender
  engineCalled : Bool
  pumpSpawned : Bool

/-- Mirrors bootstrap.into_iter().map(parse).collect::<Result<Vec<_>,_>>():
the first parse error aborts the collection and is returned. -/
def collectResults (parse : String → Except String NodeId) :
    List String → Except String (List NodeId)
  | [] => Except.ok []
  | b :: rest =>
    match parse b with
    | Except.error e => Except.error e
    | Except.ok n =>
      match collectResults parse rest with
      | Except.error e => Except.error e
      | Except.ok ns => Except.ok (n :: ns)

/-- Mirrors Gossip::subscribe (lines 145-219): length-32 topic check, bootstrap
parsing, then the call into the external engine; on success a Sender with a fresh
(uncancelled) token is produced and the pump is spawned. The callback argument is
only handed to the pump. -/
def subscribe (parse : String → Except String NodeId)
    (engine : List Nat → List NodeId → Except String EngineChannels)
    (topic : List Nat) (bootstrap : List String)
    (cb : Message → Except String Unit) : SubscribeObs :=
  if topic.length ≠ 32 then
    { result := Except.error "topic must not be longer than 32 bytes",
      engineCalled := false, pumpSpawned := false }
  else
    match collectResults parse bootstrap with
    | Except.error e =>
      { result := Except.error e, engineCalled := false, pumpSpawned := false }
    | Except.ok peers =>
      match engine topic peers with
      | Except.error e =>
        { result := Except.error e, engineCalled := true, pumpSpawned := false }
      | Except.ok _ =>
        { result := Except.ok { sinkClosed := false, cancelled := false },
          engineCalled := true, pumpSpawned := true }

/-- A parse function that always fails, with a message that does not mention its input
(the iroh NodeId parser reports decode errors, not the offending string). -/
def parseFail (s : String) : Except String NodeId := Except.error "invalid public key"

/-- A parse function that always succeeds. -/
def parseOk (s : String) : Except String NodeId := Except.ok { render := s }

/-- An engine stub that always accepts the subscription. -/
def engineOk (t : List Nat) (ps : List NodeId) : Except String EngineChannels :=
  Except.ok { chanId := 0 }

/-- A callback stub that always succeeds. -/
def cbOk (m : Message) : Except String Unit := Except.ok ()

/-- A valid 32-byte topic. -/
def topic32 : List Nat := List.replicate 32 0

/-- Character-list prefix test for the substring check below. -/
def startsWithChars : List Char → List Char → Bool
  | [], _ => true
  | _ :: _, [] => false
  | a :: as, b :: bs => decide (a = b) && startsWithChars as bs

/-- Auxiliary scan over all suffixes of the haystack. -/
def mentionsAux (needle : List Char) : List Char → Bool
  | [] => startsWithChars needle []
  | c :: rest => startsWithChars needle (c :: rest) || mentionsAux needle rest

/-- Whether the string hay contains the string needle as a substring; used to make
precise whether an error message names the offending bootstrap entry. -/
def mentions (needle hay : String) : Bool :=
  mentionsAux needle.data hay.data

/-- Inbound gossip event, mirroring iroh::gossip::net::GossipEvent as consumed
by the pump (the Received message's extra fields elided by `..` are dropped). -/
inductive GossipEvent where
  | NeighborUp (n : NodeId)
  | NeighborDown (n : NodeId)
  | Received (content : List Nat) (delivered_from : NodeId)
  | Joined (nodes : List NodeId)
deriving DecidableEq

/-- Mirrors iroh_gossip::rpc::SubscribeResponse as matched by the pump. -/
inductive SubscribeResponse where
  | Gossip (e : GossipEvent)
  | Lagged
deriving DecidableEq

/-- One item of the inbound stream: a protocol event or a stream-level error. -/
abbrev StreamItem := Except String SubscribeResponse

/-- The pump's translation of one inbound stream item into exactly one Message,
mirroring the match at src/src/gossip.rs lines 179-201. -/
def translateEvent : StreamItem → Message
  | Except.ok (SubscribeResponse.Gossip (GossipEvent.NeighborUp n)) =>
      Message.NeighborUp n.render
  | Except.ok (SubscribeResponse.Gossip (GossipEvent.NeighborDown n)) =>
      Message.NeighborDown n.render
  | Except.ok (SubscribeResponse.Gossip (GossipEvent.Received c f)) =>
      Message.Received c f.render
  | Except.ok (SubscribeResponse.Gossip (GossipEvent.Joined ns)) =>
      Message.Joined (ns.map NodeId.render)
  | Except.ok SubscribeResponse.Lagged => Message.Lagged
  | Except.error e => Message.Error e

/-- One observable step of the pump loop: consuming the next inbound item,
starting a callback invocation, the invocation returning, or the warn! log
emitted when the callback returned an error. -/
inductive PumpStep where
  | nextItem (e : StreamItem)
  | callStart (m : Message)
  | callEnd (m : Message) (r : Except String Unit)
  | logWarn (err : String)

/-- Whether the shared cancellation signal reads as set at the start of loop
iteration i, given the iteration index at which it was first observed set
(none : never cancelled). -/
def signalSet (cancelledAt : Option Nat) (i : Nat) : Bool :=
  match cancelledAt with
  | none => false
  | some k => decide (k ≤ i)

/-- The pump loop spawned by subscribe (lines 170-211), as the trace of its
observable steps. Each iteration first checks the cancellation signal (the
biased select arm) and stops if it is set; otherwise, if an inbound item is
pending it is translated to one Message, the callback is invoked with it and
awaited, a failing callback is logged and the loop continues; an exhausted
stream ends the loop. -/
def pumpRun (cb : Message → Except String Unit) (cancelledAt : Option Nat) :
    Nat → List StreamItem → List PumpStep
  | _, [] => []
  | i, e :: rest =>
    if signalSet cancelledAt i then []
    else
      PumpStep.nextItem e :: PumpStep.callStart (translateEvent e) ::
        PumpStep.callEnd (translateEvent e) (cb (translateEvent e)) ::
        ((match cb (translateEvent e) with
          | Except.ok _ => []
          | Except.error err => [PumpStep.logWarn err]) ++
          pumpRun cb cancelledAt (i + 1) rest)

/-- The messages handed to the callback, in order, in a pump trace. -/
def deliveredMsgs (tr : List PumpStep) : List Message :=
  tr.filterMap fun s =>
    match s with
    | PumpStep.callStart m => some m
    | _ => none

/-- The inbound items consumed from the stream, in order, in a pump trace. -/
def consumedItems (tr : List PumpStep) : List StreamItem :=
  tr.filterMap fun s =>
    match s with
    | PumpStep.nextItem e => some e
    | _ => none

/-- Serialization check over a pump trace: the Bool records whether a callback
invocation is currently in flight; a new invocation may start, and an item may
be consumed, only when none is in flight, and the trace must end with none in
flight. -/
def serializedAux : Bool → List PumpStep → Bool
  | inside, [] => !inside
  | false, PumpStep.nextItem _ :: rest => serializedAux false rest
  | false, PumpStep.callStart _ :: rest => serializedAux true rest
  | false, PumpStep.callEnd _ _ :: _ => false
  | false, PumpStep.logWarn _ :: rest => serializedAux false rest
  | true, PumpStep.callEnd _ _ :: rest => serializedAux false rest
  | true, PumpStep.nextItem _ :: _ => false
  | true, PumpStep.callStart _ :: _ => false
  | true, PumpStep.logWarn _ :: _ => false

/-- A trace is serialized when every callback invocation completes before the
next item is consumed or the next invocation starts. -/
def serialized (tr : List PumpStep) : Bool :=
  serializedAux false tr

/-- Mirrors Sender::cancel (lines 255-262): the AlreadyClosed guard runs first;
then the outbound sink is closed (its outcome supplied by the external sink),
and only on success is the cancellation token set. -/
def Sender.cancel (st : Sender) (closeResult : Except String Unit) :
    Except String Unit × Sender :=
  if st.cancelled then (Except.error "already closed", st)
  else
    match closeResult with
    | Except.error e => (Except.error e, st)
    | Except.ok _ =>
      (Except.ok (), { sinkClosed := true, cancelled := true })

/-- A callback stub that always fails. -/
def cbFail (m : Message) : Except String Unit := Except.error "boom"

/-- With the cancellation signal never set, the pump delivers to the callback
the translation of every inbound item, in order. -/
theorem deliveredMsgs_pumpRun_none (cb : Message → Except String Unit)
    (events : List StreamItem) (i : Nat) :
    deliveredMsgs (pumpRun cb none i events) = events.map translateEvent := by
  induction events generalizing i with
  | nil => rfl
  | cons e rest ih =>
    simp only [pumpRun, signalSet, if_false, deliveredMsgs, List.filterMap_cons,
      List.filterMap_append]
    cases cb (translateEvent e) with
    | ok u =>
      simp only [List.filterMap_nil, List.nil_append, List.map_cons]
      exact congrArg _ (ih (i + 1))
    | error err =>
      simp only [List.filterMap_cons, List.filterMap_nil, List.nil_append, List.map_cons]
      exact congrArg _ (ih (i + 1))

/-- With the cancellation signal never set, the pump consumes every inbound
item, in order. -/
theorem consumedItems_pumpRun_none (cb : Message → Except String Unit)
    (events : List StreamItem) (i : Nat) :
    consumedItems (pumpRun cb none i events) = events := by
  induction events generalizing i with
  | nil => rfl
  | cons e rest ih =>
    simp only [pumpRun, signalSet, if_false, consumedItems, List.filterMap_cons,
      List.filterMap_append]
    cases cb (translateEvent e) with
    | ok u =>
      simp only [List.filterMap_nil, List.nil_append]
      exact congrArg _ (ih (i + 1))
    | error err =>
      simp only [List.filterMap_cons, List.filterMap_nil, List.nil_append]
      exact congrArg _ (ih (i + 1))

/-- Every pump trace is serialized: callback invocations never overlap and each
completes before the next item is consumed. -/
theorem serialized_pumpRun (cb : Message → Except String Unit)
    (cancelledAt : Option Nat) (events : List StreamItem) (i : Nat) :
    serialized (pumpRun cb cancelledAt i events) = true := by
  induction events generalizing i with
  | nil => rfl
  | cons e rest ih =>
    simp only [serialized, pumpRun]
    cases h : signalSet cancelledAt i with
    | true => rfl
    | false =>
      simp only [Bool.false_eq_true, if_false]
      cases cb (translateEvent e) with
      | ok u =>
        simpa only [serializedAux, List.nil_append] using ih (i + 1)
      | error err =>
        simpa only [serializedAux, List.cons_append, List.nil_append] using ih (i + 1)

/-- Once the signal reads set at the start of an iteration, the pump trace is
over: nothing further is consumed, delivered or invoked. -/
theorem pumpRun_stopped_of_le (cb : Message → Except String Unit) (k i : Nat)
    (events : List StreamItem) (h : k ≤ i) :
    pumpRun cb (some k) i events = [] := by
  cases events with
  | nil => rfl
  | cons e rest => simp [pumpRun, signalSet, h]

/-- With the signal first observed set at iteration k, the pump delivers exactly
the translations of the first k - i items. -/
theorem deliveredMsgs_pumpRun_some (cb : Message → Except String Unit)
    (events : List StreamItem) (i k : Nat) :
    deliveredMsgs (pumpRun cb (some k) i events) =
      (events.take (k - i)).map translateEvent := by
  induction events generalizing i with
  | nil => simp [deliveredMsgs, pumpRun]
  | cons e rest ih =>
    by_cases h : k ≤ i
    · rw [pumpRun_stopped_of_le cb k i _ h]
      have hz : k - i = 0 := Nat.sub_eq_zero_of_le h
      simp [deliveredMsgs, hz]
    · have hlt : i < k := Nat.lt_of_not_le h
      obtain ⟨n, hn⟩ : ∃ n, k - i = n + 1 :=
        ⟨k - i - 1, by omega⟩
      have hsig : signalSet (some k) i = false := by
        simp [signalSet, h]
      simp only [pumpRun, hsig, if_false, deliveredMsgs, List.filterMap_cons,
        List.filterMap_append, hn, List.take_succ_cons, List.map_cons]
      have hn2 : k - (i + 1) = n := by omega
      cases cb (translateEvent e) with
      | ok u =>
        simp only [List.filterMap_nil, List.nil_append]
        have := ih (i + 1)
        rw [hn2] at this
        exact congrArg _ this
      | error err =>
        simp only [List.filterMap_cons, List.filterMap_nil, List.nil_append]
        have := ih (i + 1)
        rw [hn2] at this
        exact congrArg _ this

/-- If some bootstrap entry fails to parse, the collection fails, and its error is
the parse error of some member of the list (in fact the first failing one). -/
theorem collectResults_error_of_mem (parse : String → Except String NodeId)
    (bs : List String) (b : String) (e : String)
    (hb : b ∈ bs) (he : parse b = Except.error e) :
    ∃ e0, (∃ b0 ∈ bs, parse b0 = Except.error e0) ∧
      collectResults parse bs = Except.error e0 := by
  induction bs with
  | nil => cases hb
  | cons a rest ih =>
    cases hpa : parse a with
    | error ea =>
      exact ⟨ea, ⟨a, List.mem_cons_self a rest, hpa⟩, by simp [collectResults, hpa]⟩
    | ok n =>
      rcases List.mem_cons.mp hb with rfl | hbr
      · rw [hpa] at he; cases he
      · obtain ⟨e0, ⟨b0, hb0, hpb0⟩, hcr⟩ := ih hbr
        refine ⟨e0, ⟨b0, List.mem_cons_of_mem a hb0, hpb0⟩, ?_⟩
        simp [collectResults, hpa, hcr]

/-- C1: the claim says each narrowing accessor, on a mismatched variant, returns an
explicit error result rather than terminating the process. In the code every
mismatched access panics: as_neighbor_up on a NeighborDown message (and likewise
the other accessors) yields a process-terminating panic, not an error value. -/
theorem C1_counterexample :
    Message.as_neighbor_up (Message.NeighborDown "peer") =
      AccessOutcome.panics "not a NeighborUp message" ∧
    AccessOutcome.isPanic (Message.as_neighbor_up (Message.NeighborDown "peer")) = true ∧
    Message.as_neighbor_down (Message.NeighborUp "peer") =
      AccessOutcome.panics "not a NeighborDown message" ∧
    Message.as_joined Message.Lagged = AccessOutcome.panics "not a Joined message" ∧
    Message.as_received Message.Lagged = AccessOutcome.panics "not a Received message" ∧
    Message.as_error Message.Lagged = AccessOutcome.panics "not a Error message" :=
  ⟨rfl, rfl, rfl, rfl, rfl, rfl⟩

/-- C1 (amended): for every Message variant v and every narrowing accessor whose
expected variant does not match v's tag, calling the accessor on v terminates the
process with a panic naming the expected variant; no error result is returned. -/
theorem C1_accessors_panic_on_mismatch (v : Message) :
    (v.type ≠ MessageType.NeighborUp →
      v.as_neighbor_up = AccessOutcome.panics "not a NeighborUp message") ∧
    (v.type ≠ MessageType.NeighborDown →
      v.as_neighbor_down = AccessOutcome.panics "not a NeighborDown message") ∧
    (v.type ≠ MessageType.Joined →
      v.as_joined = AccessOutcome.panics "not a Joined message") ∧
    (v.type ≠ MessageType.Received →
      v.as_received = AccessOutcome.panics "not a Received message") ∧
    (v.type ≠ MessageType.Error →
      v.as_error = AccessOutcome.panics "not a Error message") := by
  cases v <;>
    refine ⟨fun h => ?_, fun h => ?_, fun h => ?_, fun h => ?_, fun h => ?_⟩ <;>
    first
      | rfl
      | exact absurd rfl h

/-- C1 witness: the amended claim at the concrete input Lagged / as_neighbor_up. -/
theorem C1_witness :
    Message.as_neighbor_up Message.Lagged =
      AccessOutcome.panics "not a NeighborUp message" :=
  (C1_accessors_panic_on_mismatch Message.Lagged).1 (by decide)

/-- C2: for every topic whose length is not 32, and every bootstrap list, callback,
parse function and engine, subscribe returns the invalid-topic error, never calls
the external engine's subscribe, spawns no pump, and produces no handle. -/
theorem C2_invalid_topic (parse : String → Except String NodeId)
    (engine : List Nat → List NodeId → Except String EngineChannels)
    (topic : List Nat) (bootstrap : List String)
    (cb : Message → Except String Unit) (h : topic.length ≠ 32) :
    subscribe parse engine topic bootstrap cb =
      { result := Except.error "topic must not be longer than 32 bytes",
        engineCalled := false, pumpSpawned := false } := by
  unfold subscribe
  rw [if_pos h]

/-- C2 witness: the empty topic is rejected with no engine call. -/
theorem C2_witness :
    (([] : List Nat).length ≠ 32) ∧
    subscribe parseOk engineOk [] [] cbOk =
      { result := Except.error "topic must not be longer than 32 bytes",
        engineCalled := false, pumpSpawned := false } :=
  ⟨by decide, C2_invalid_topic parseOk engineOk [] [] cbOk (by decide)⟩

/-- C3: the claim additionally says the InvalidPeerAddress error names the
unparseable entry. The code forwards the parse error verbatim: with a parser whose
error message is "invalid public key", subscribing with the unparseable entry
"zzz" yields an error that does not mention "zzz" at all (while still never
calling the engine). -/
theorem C3_counterexample :
    (subscribe parseFail engineOk topic32 ["zzz"] cbOk).result =
      Except.error "invalid public key" ∧
    (subscribe parseFail engineOk topic32 ["zzz"] cbOk).engineCalled = false ∧
    mentions "zzz" "invalid public key" = false :=
  ⟨rfl, rfl, rfl⟩

/-- C3 (amended): for every 32-byte topic and every bootstrap list containing an
entry that fails to parse, subscribe returns the parse error of some unparseable
entry of the list (the parser's own description, which need not name the entry),
never calls the external engine's subscribe, and spawns no pump. -/
theorem C3_invalid_peer (parse : String → Except String NodeId)
    (engine : List Nat → List NodeId → Except String EngineChannels)
    (topic : List Nat) (bootstrap : List String)
    (cb : Message → Except String Unit) (b : String) (e : String)
    (hlen : topic.length = 32) (hb : b ∈ bootstrap)
    (he : parse b = Except.error e) :
    (subscribe parse engine topic bootstrap cb).engineCalled = false ∧
    (subscribe parse engine topic bootstrap cb).pumpSpawned = false ∧
    ∃ e0, (∃ b0 ∈ bootstrap, parse b0 = Except.error e0) ∧
      (subscribe parse engine topic bootstrap cb).result = Except.error e0 := by
  obtain ⟨e0, hmem, hcr⟩ := collectResults_error_of_mem parse bootstrap b e hb he
  have hne : ¬topic.length ≠ 32 := fun hne => hne hlen
  unfold subscribe
  rw [if_neg hne, hcr]
  exact ⟨rfl, rfl, e0, hmem, rfl⟩

/-- C3 witness: the amended claim at the concrete unparseable entry "zzz". -/
theorem C3_witness :
    (subscribe parseFail engineOk topic32 ["zzz"] cbOk).engineCalled = false ∧
    (subscribe parseFail engineOk topic32 ["zzz"] cbOk).pumpSpawned = false ∧
    ∃ e0, (∃ b0 ∈ ["zzz"], parseFail b0 = Except.error e0) ∧
      (subscribe parseFail engineOk topic32 ["zzz"] cbOk).result = Except.error e0 :=
  C3_invalid_peer parseFail engineOk topic32 ["zzz"] cbOk "zzz" "invalid public key"
    (by decide) (by simp) rfl

/-- C4: the pump translates each inbound item into exactly one Message by the
fixed mapping (NeighborUp, NeighborDown, Received, Joined, Lagged, stream error
to Error), and invokes the callback with exactly that message: over a full run
the delivered messages are the item-wise translations of the consumed items. -/
theorem C4_pump_mapping (cb : Message → Except String Unit)
    (events : List StreamItem) (n : NodeId) (c : List Nat) (f : NodeId)
    (ns : List NodeId) (e : String) :
    translateEvent (Except.ok (SubscribeResponse.Gossip (GossipEvent.NeighborUp n))) =
      Message.NeighborUp n.render ∧
    translateEvent (Except.ok (SubscribeResponse.Gossip (GossipEvent.NeighborDown n))) =
      Message.NeighborDown n.render ∧
    translateEvent (Except.ok (SubscribeResponse.Gossip (GossipEvent.Received c f))) =
      Message.Received c f.render ∧
    translateEvent (Except.ok (SubscribeResponse.Gossip (GossipEvent.Joined ns))) =
      Message.Joined (ns.map NodeId.render) ∧
    translateEvent (Except.ok SubscribeResponse.Lagged) = Message.Lagged ∧
    translateEvent (Except.error e) = Message.Error e ∧
    deliveredMsgs (pumpRun cb none 0 events) = events.map translateEvent ∧
    consumedItems (pumpRun cb none 0 events) = events :=
  ⟨rfl, rfl, rfl, rfl, rfl, rfl, deliveredMsgs_pumpRun_none cb events 0,
    consumedItems_pumpRun_none cb events 0⟩

/-- C5: an erroring inbound item is delivered as exactly one Error message and the
pump continues: every subsequent item is still consumed, translated and
delivered. -/
theorem C5_error_item_continues (cb : Message → Except String Unit)
    (e : String) (rest : List StreamItem) (i : Nat) :
    deliveredMsgs (pumpRun cb none i (Except.error e :: rest)) =
      Message.Error e :: rest.map translateEvent ∧
    consumedItems (pumpRun cb none i (Except.error e :: rest)) =
      Except.error e :: rest :=
  ⟨deliveredMsgs_pumpRun_none cb (Except.error e :: rest) i,
   consumedItems_pumpRun_none cb (Except.error e :: rest) i⟩

/-- C6: a failing callback invocation is recorded via the warn log and the pump
continues: the iteration's trace is exactly consume, invoke, return, log, followed
by the normal processing of the remaining items; delivery is unaffected by
callback results and nothing reaches the handle. -/
theorem C6_callback_error_continues (cb : Message → Except String Unit)
    (i : Nat) (ev : StreamItem) (rest : List StreamItem) (err : String)
    (h : cb (translateEvent ev) = Except.error err) :
    pumpRun cb none i (ev :: rest) =
      PumpStep.nextItem ev :: PumpStep.callStart (translateEvent ev) ::
      PumpStep.callEnd (translateEvent ev) (Except.error err) ::
      PumpStep.logWarn err :: pumpRun cb none (i + 1) rest ∧
    deliveredMsgs (pumpRun cb none i (ev :: rest)) = (ev :: rest).map translateEvent ∧
    consumedItems (pumpRun cb none i (ev :: rest)) = ev :: rest := by
  refine ⟨?_, deliveredMsgs_pumpRun_none cb _ i, consumedItems_pumpRun_none cb _ i⟩
  simp [pumpRun, signalSet, h]

/-- C6 witness: a callback that always fails still sees the message, the failure is
logged, and the message counts as delivered. -/
theorem C6_witness :
    pumpRun cbFail none 0 [Except.ok SubscribeResponse.Lagged] =
      [PumpStep.nextItem (Except.ok SubscribeResponse.Lagged),
       PumpStep.callStart Message.Lagged,
       PumpStep.callEnd Message.Lagged (Except.error "boom"),
       PumpStep.logWarn "boom"] ∧
    deliveredMsgs (pumpRun cbFail none 0 [Except.ok SubscribeResponse.Lagged]) =
      [Except.ok SubscribeResponse.Lagged].map translateEvent ∧
    consumedItems (pumpRun cbFail none 0 [Except.ok SubscribeResponse.Lagged]) =
      [Except.ok SubscribeResponse.Lagged] :=
  C6_callback_error_continues cbFail 0 (Except.ok SubscribeResponse.Lagged) [] "boom" rfl

/-- C7: cancel on a handle whose token is not yet cancelled closes the outbound
sink, sets the token and returns success (when the sink close succeeds); on a
handle whose token is already cancelled, cancel returns the already-closed error
whatever the sink would do. -/
theorem C7_cancel_idempotency (st : Sender) :
    (st.cancelled = false →
      Sender.cancel st (Except.ok ()) =
        (Except.ok (), { sinkClosed := true, cancelled := true })) ∧
    (st.cancelled = true →
      ∀ r, Sender.cancel st r = (Except.error "already closed", st)) := by
  constructor
  · intro h
    simp [Sender.cancel, h]
  · intro h r
    simp [Sender.cancel, h]

/-- C7 witness: a fresh handle cancels successfully; a cancelled one reports
already closed. -/
theorem C7_witness :
    Sender.cancel { sinkClosed := false, cancelled := false } (Except.ok ()) =
      (Except.ok (), { sinkClosed := true, cancelled := true }) ∧
    Sender.cancel { sinkClosed := true, cancelled := true } (Except.ok ()) =
      (Except.error "already closed", { sinkClosed := true, cancelled := true }) :=
  ⟨(C7_cancel_idempotency { sinkClosed := false, cancelled := false }).1 rfl,
   (C7_cancel_idempotency { sinkClosed := true, cancelled := true }).2 rfl (Except.ok ())⟩

/-- C8: the cancellation signal is checked with priority at the start of each
iteration: once it reads set, the pump stops with an empty remaining trace, so no
further item is consumed, no message delivered, and no callback invocation ever
occurs after the stop. -/
theorem C8_cancel_priority (cb : Message → Except String Unit) (k i : Nat)
    (events : List StreamItem) (h : k ≤ i) :
    pumpRun cb (some k) i events = [] ∧
    deliveredMsgs (pumpRun cb (some k) i events) = [] ∧
    consumedItems (pumpRun cb (some k) i events) = [] ∧
    (∀ m, PumpStep.callStart m ∉ pumpRun cb (some k) i events) := by
  have h0 := pumpRun_stopped_of_le cb k i events h
  refine ⟨h0, ?_, ?_, ?_⟩ <;> simp [h0, deliveredMsgs, consumedItems]

/-- C8 witness: with the signal set before the first iteration, a pending item is
not delivered. -/
theorem C8_witness :
    pumpRun cbOk (some 0) 0 [Except.ok SubscribeResponse.Lagged] = [] ∧
    deliveredMsgs (pumpRun cbOk (some 0) 0 [Except.ok SubscribeResponse.Lagged]) = [] ∧
    consumedItems (pumpRun cbOk (some 0) 0 [Except.ok SubscribeResponse.Lagged]) = [] ∧
    (∀ m, PumpStep.callStart m ∉ pumpRun cbOk (some 0) 0 [Except.ok SubscribeResponse.Lagged]) :=
  C8_cancel_priority cbOk 0 0 [Except.ok SubscribeResponse.Lagged] (Nat.le_refl 0)

/-- C9: delivery order equals arrival order (the delivered messages are the
item-wise translations of the inbound items, a prefix when cancellation cuts the
run short), and callback invocations are strictly serialized: every trace the
pump can produce passes the serialization check (each invocation completes before
the next item is consumed or the next invocation starts). -/
theorem C9_order_and_serialization (cb : Message → Except String Unit)
    (events : List StreamItem) (cancelledAt : Option Nat) :
    deliveredMsgs (pumpRun cb none 0 events) = events.map translateEvent ∧
    (∀ k, deliveredMsgs (pumpRun cb (some k) 0 events) =
      (events.take k).map translateEvent) ∧
    serialized (pumpRun cb cancelledAt 0 events) = true :=
  ⟨deliveredMsgs_pumpRun_none cb events 0,
   fun k => deliveredMsgs_pumpRun_some cb events 0 k,
   serialized_pumpRun cb cancelledAt events 0⟩

/-- C10: cancel closes the sink before setting the token; if the close fails on a
not-yet-cancelled handle, cancel returns that error, the token stays unset (the
pump would keep running), and a subsequent cancel is not rejected with
already-closed. -/
theorem C10_close_failure (st : Sender) (e : String) (h : st.cancelled = false) :
    Sender.cancel st (Except.error e) = (Except.error e, st) ∧
    ((Sender.cancel st (Except.error e)).2).cancelled = false ∧
    (Sender.cancel ((Sender.cancel st (Except.error e)).2) (Except.ok ())).1 =
      Except.ok () := by
  have h1 : Sender.cancel st (Except.error e) = (Except.error e, st) := by
    simp [Sender.cancel, h]
  refine ⟨h1, ?_, ?_⟩
  · rw [h1]
    exact h
  · rw [h1]
    simp [Sender.cancel, h]

/-- C10 witness: a failing sink close on a fresh handle leaves it cancellable. -/
theorem C10_witness :
    Sender.cancel { sinkClosed := false, cancelled := false }
        (Except.error "close failed") =
      (Except.error "close failed", { sinkClosed := false, cancelled := false }) ∧
    ((Sender.cancel { sinkClosed := false, cancelled := false }
        (Except.error "close failed")).2).cancelled = false ∧
    (Sender.cancel ((Sender.cancel { sinkClosed := false, cancelled := false }
        (Except.error "close failed")).2) (Except.ok ())).1 = Except.ok () :=
  C10_close_failure { sinkClosed := false, cancelled := false } "close failed" rfl

end GossipFfi
